import Mathlib

/-
  Verification development for the wp-hubstack site-optimizer core
  (inventory tracking, traffic-based tier classification, capacity
  validation, and per-site configuration deployment).

  The Lean definitions below are a shallow embedding of the Python
  sources under scripts/server/site-optimizer/src/:
    models/site.py, models/server.py, models/deployment.py,
    services/classifier.py, services/inventory.py, services/deployer.py.

  Conventions of the embedding:
  - Python ints are Nat/Int; Python floats are modelled as exact
    rationals (the arithmetic in this core is on small decimal
    constants, where IEEE evaluation agrees with exact arithmetic at
    every band boundary the theorems mention).
  - Python dicts keyed by strings are association lists with
    dict-update semantics (assignment to an existing key updates it in
    place, a new key is appended; iteration order is insertion order).
  - Raised exceptions are Except.error values; a method that catches
    exceptions is embedded as the corresponding match on the error.
  - String.lower / strip / isspace are modelled over the ASCII range
    by structural recursion on the character list, so that all
    definitions evaluate inside the kernel.
-/

namespace SiteOptimizer

/-! ## String helpers (Python str.lower / str.strip / str.isspace) -/

/-- Python str.lower over the character list (ASCII model). -/
def pyLower (s : String) : String :=
  ⟨s.data.map Char.toLower⟩

/-- Python str.strip: drop leading and trailing whitespace. -/
def pyStrip (s : String) : String :=
  ⟨((s.data.dropWhile Char.isWhitespace).reverse.dropWhile Char.isWhitespace).reverse⟩

/-- Python str.isspace: nonempty and every character is whitespace. -/
def pyIsSpace (s : String) : Bool :=
  !s.data.isEmpty && s.data.all Char.isWhitespace

/-- Normalization applied by the Site.domain / Site.server / Server.hostname
    validators: `v.lower().strip()`. -/
def normalizeKey (s : String) : String :=
  pyStrip (pyLower s)

/-! ## Python round (banker's rounding, as used with a digit count) -/

/-- Round-half-to-even to an integer, as Python round does on floats. -/
def roundHalfEven (q : ℚ) : ℤ :=
  let f : ℤ := ⌊q⌋
  let r : ℚ := q - (f : ℚ)
  if r < 1/2 then f
  else if (1:ℚ)/2 < r then f + 1
  else if 2 ∣ f then f else f + 1

/-- Python round(x, n) for n decimal digits. -/
def pyRound (q : ℚ) (n : ℕ) : ℚ :=
  ((roundHalfEven (q * (10:ℚ)^n) : ℤ) : ℚ) / (10:ℚ)^n

/-! ## Data model: models/site.py -/

/-- Tier — IntEnum HIGH=1, MEDIUM=2, LOW=3 (models/site.py). -/
inductive Tier where
  | HIGH
  | MEDIUM
  | LOW
deriving DecidableEq

/-- Integer value of a tier (the IntEnum ordinal). -/
def Tier.value : Tier → ℕ
  | .HIGH => 1
  | .MEDIUM => 2
  | .LOW => 3

/-- TrafficStats (models/site.py); the last_updated timestamp is not part
    of any decision logic and is omitted. -/
structure TrafficStats where
  daily_visitors : ℕ
  page_views : ℕ
  bounce_rate : ℚ
  avg_session_duration : ℚ
deriving DecidableEq

/-- ResourceConfig (models/site.py). -/
structure ResourceConfig where
  max_workers : ℕ
  memory_limit : String
  max_execution_time : ℕ
  upload_max_filesize : String
deriving DecidableEq

/-- Site (models/site.py). The domain and server strings are stored
    after the field validators ran (lower-cased and stripped). -/
structure Site where
  domain : String
  server : String
  current_tier : Option Tier := none
  assigned_tier : Option Tier := none
  traffic : Option TrafficStats := none
  resources : Option ResourceConfig := none
  container_name : Option String := none
  site_path : Option String := none
deriving DecidableEq

/-- Keyword arguments of the Site constructor, before validation. -/
structure SiteInput where
  domain : String
  server : String
  current_tier : Option Tier := none
  assigned_tier : Option Tier := none
  traffic : Option TrafficStats := none
  resources : Option ResourceConfig := none
  container_name : Option String := none
  site_path : Option String := none

/-- Field validator for Site.domain / Site.server (models/site.py
    validate_domain / validate_server): reject an empty or
    whitespace-only value, otherwise return `v.lower().strip()`. -/
def validateKeyField (v : String) : Except String String :=
  if v = "" || pyIsSpace v then Except.error "value cannot be empty"
  else Except.ok (normalizeKey v)

/-- Site construction (pydantic validation): validates domain and server,
    keeps the remaining fields as given. A validation failure is the
    ValidationError the callers catch. -/
def Site.build (inp : SiteInput) : Except String Site :=
  match validateKeyField inp.domain with
  | Except.error e => Except.error e
  | Except.ok d =>
    match validateKeyField inp.server with
    | Except.error e => Except.error e
    | Except.ok sv =>
      Except.ok
        { domain := d
          server := sv
          current_tier := inp.current_tier
          assigned_tier := inp.assigned_tier
          traffic := inp.traffic
          resources := inp.resources
          container_name := inp.container_name
          site_path := inp.site_path }

/-! ## Data model: models/server.py -/

/-- ServerStatus enum (models/server.py). -/
inductive ServerStatus where
  | UNDER_CAPACITY
  | OPTIMAL
  | OVER_CAPACITY
  | CRITICAL
deriving DecidableEq

/-- ServerSpecs (models/server.py); pydantic requires each field > 0,
    carried as hypotheses where a theorem needs it. -/
structure ServerSpecs where
  cpu_cores : ℕ
  ram_gb : ℕ
  disk_gb : ℕ
deriving DecidableEq

/-- ServerCapacity (models/server.py). -/
structure ServerCapacity where
  current_sites : ℕ
  recommended_max : ℕ
  status : ServerStatus
deriving DecidableEq

/-- ServerCapacity.utilization_percent: `(current_sites / recommended_max) * 100.0`,
    0.0 when recommended_max == 0. -/
def ServerCapacity.utilization_percent (c : ServerCapacity) : ℚ :=
  if c.recommended_max = 0 then 0
  else ((c.current_sites : ℚ) / (c.recommended_max : ℚ)) * 100

/-- Server (models/server.py). -/
structure Server where
  hostname : String
  specs : ServerSpecs
  sites : List String := []
  capacity : ServerCapacity
  ssh_user : String := "deploy"
  ssh_port : ℕ := 22
deriving DecidableEq

/-- Server.add_site: append the domain when absent and refresh
    current_sites from the list length; a present domain is a no-op. -/
def Server.add_site (s : Server) (domain : String) : Server :=
  if domain ∈ s.sites then s
  else
    { s with
        sites := s.sites ++ [domain]
        capacity := { s.capacity with current_sites := (s.sites ++ [domain]).length } }

/-- Removal of the first occurrence, as Python list.remove does. -/
def removeFirst (d : String) : List String → List String
  | [] => []
  | x :: xs => if x = d then xs else x :: removeFirst d xs

/-- Server.remove_site: remove the domain when present and refresh
    current_sites from the list length; an absent domain is a no-op. -/
def Server.remove_site (s : Server) (domain : String) : Server :=
  if domain ∈ s.sites then
    { s with
        sites := removeFirst domain s.sites
        capacity := { s.capacity with current_sites := (removeFirst domain s.sites).length } }
  else s

/-- Server.update_capacity_status (models/server.py): derive the status
    from utilization_percent with the comparison chain of the source
    (>= 125 critical, > 100 over, >= 80 optimal, else under). -/
def Server.update_capacity_status (s : Server) : Server :=
  let utilization := s.capacity.utilization_percent
  if (125:ℚ) ≤ utilization then
    { s with capacity := { s.capacity with status := ServerStatus.CRITICAL } }
  else if (100:ℚ) < utilization then
    { s with capacity := { s.capacity with status := ServerStatus.OVER_CAPACITY } }
  else if (80:ℚ) ≤ utilization then
    { s with capacity := { s.capacity with status := ServerStatus.OPTIMAL } }
  else
    { s with capacity := { s.capacity with status := ServerStatus.UNDER_CAPACITY } }

/-! ## Classifier (services/classifier.py) -/

/-- ClassifierService configuration: the two visitor thresholds. -/
structure ClassifierConfig where
  tier1_threshold : ℤ
  tier2_threshold : ℤ
deriving DecidableEq

/-- ClassifierService.classify_site: LOW when traffic is absent,
    otherwise compare daily_visitors against the two thresholds.
    A pure function of its arguments: it returns only a Tier and
    touches neither the site nor the inventory. -/
def classify_site (c : ClassifierConfig) (site : Site) : Tier :=
  match site.traffic with
  | none => Tier.LOW
  | some traffic =>
    if c.tier1_threshold ≤ (traffic.daily_visitors : ℤ) then Tier.HIGH
    else if c.tier2_threshold ≤ (traffic.daily_visitors : ℤ) then Tier.MEDIUM
    else Tier.LOW

/-- Counts returned by ClassifierService.classify_all. -/
structure ClassifyCounts where
  classified : ℕ
  skipped : ℕ
  tier1 : ℕ
  tier2 : ℕ
  tier3 : ℕ
deriving DecidableEq

/-- Loop body of ClassifierService.classify_all over the sites of the
    inventory (in iteration order), threading the mutable counts. -/
def classifyAllGo (c : ClassifierConfig) (overwrite : Bool) :
    List Site → ClassifyCounts → List Site × ClassifyCounts
  | [], acc => ([], acc)
  | s :: rest, acc =>
    if s.assigned_tier.isSome && !overwrite then
      -- skip if already classified and not overwriting
      let r := classifyAllGo c overwrite rest { acc with skipped := acc.skipped + 1 }
      (s :: r.1, r.2)
    else
      let tier := classify_site c s
      let s' := { s with assigned_tier := some tier }
      let acc' := { acc with classified := acc.classified + 1 }
      let acc'' :=
        match tier with
        | Tier.HIGH => { acc' with tier1 := acc'.tier1 + 1 }
        | Tier.MEDIUM => { acc' with tier2 := acc'.tier2 + 1 }
        | Tier.LOW => { acc' with tier3 := acc'.tier3 + 1 }
      let r := classifyAllGo c overwrite rest acc''
      (s' :: r.1, r.2)

/-- ClassifierService.classify_all: iterate all sites, skipping the
    already-classified ones unless overwrite is set; returns the updated
    sites (the inventory values, in order) and the counts. -/
def classify_all (c : ClassifierConfig) (sites : List Site) (overwrite : Bool) :
    List Site × ClassifyCounts :=
  classifyAllGo c overwrite sites ⟨0, 0, 0, 0, 0⟩

/-! ## Inventory (services/inventory.py)

Python dicts keyed by domain / hostname are association lists with
dict-update semantics. -/

/-- Dictionary lookup (dict.get). -/
def listGet {α : Type} : List (String × α) → String → Option α
  | [], _ => none
  | (k, v) :: rest, key => if k = key then some v else listGet rest key

/-- Dictionary assignment d[key] = v: update in place when the key is
    present, append otherwise. -/
def listSet {α : Type} : List (String × α) → String → α → List (String × α)
  | [], key, v => [(key, v)]
  | (k, w) :: rest, key, v =>
    if k = key then (k, v) :: rest else (k, w) :: listSet rest key v

/-- In-place mutation of the value stored at a key (d[key].method()). -/
def listModify {α : Type} : List (String × α) → String → (α → α) → List (String × α)
  | [], _, _ => []
  | (k, w) :: rest, key, f =>
    if k = key then (k, f w) :: rest else (k, w) :: listModify rest key f

/-- In-memory state of InventoryService: the sites and servers dicts. -/
structure Inventory where
  sites : List (String × Site)
  servers : List (String × Server)
deriving DecidableEq

/-- InventoryService.get_site: point lookup by the raw domain string. -/
def InventoryService.get_site (inv : Inventory) (domain : String) : Option Site :=
  listGet inv.sites domain

/-- InventoryService.get_server: point lookup by the raw hostname. -/
def InventoryService.get_server (inv : Inventory) (hostname : String) : Option Server :=
  listGet inv.servers hostname

/-- InventoryService.list_sites: the site values with the optional
    server and tier filters of the source. -/
def InventoryService.list_sites (sites : List Site) (server : Option String)
    (tier : Option ℕ) : List Site :=
  let filtered :=
    match server with
    | none => sites
    | some h => sites.filter (fun s => s.server = h)
  match tier with
  | none => filtered
  | some t =>
    filtered.filter (fun s => s.assigned_tier.isSome &&
      ((s.assigned_tier.map Tier.value).getD 0 = t))

/-- ClassifierService.set_tier: look up the raw domain, raise ValueError
    when absent, otherwise overwrite assigned_tier. -/
def set_tier (inv : Inventory) (domain : String) (tier : Tier) : Except String Inventory :=
  match InventoryService.get_site inv domain with
  | none => Except.error ("Site not found: " ++ domain)
  | some site =>
    Except.ok { inv with sites := listSet inv.sites domain { site with assigned_tier := some tier } }

/-- Result record of ClassifierService.validate_server_capacity. -/
structure CapacityValidation where
  hostname : String
  tier1_sites : ℕ
  tier2_sites : ℕ
  tier3_sites : ℕ
  estimated_ram_gb : ℚ
  available_ram_gb : ℤ
  is_valid : Bool
  utilization_percent : ℚ
deriving DecidableEq

/-- Count of sites carrying a given assigned tier (the tier_counts loop
    of validate_server_capacity, one bucket at a time). -/
def countAssigned (sites : List Site) (t : Tier) : ℕ :=
  sites.countP (fun s => s.assigned_tier = some t)

/-- ClassifierService.validate_server_capacity: filter the inventory
    sites to this server, count assigned tiers, estimate RAM with the
    fixed weights 4.5 / 2.75 / 1.25, reserve 5GB, and report validity
    and utilization. -/
def validate_server_capacity (sites : List Site) (server : Server) : CapacityValidation :=
  let ss := InventoryService.list_sites sites (some server.hostname) none
  let t1 := countAssigned ss Tier.HIGH
  let t2 := countAssigned ss Tier.MEDIUM
  let t3 := countAssigned ss Tier.LOW
  let estimated_ram : ℚ := (t1 : ℚ) * 4.5 + (t2 : ℚ) * 2.75 + (t3 : ℚ) * 1.25
  let available_ram : ℤ := (server.specs.ram_gb : ℤ) - 5
  { hostname := server.hostname
    tier1_sites := t1
    tier2_sites := t2
    tier3_sites := t3
    estimated_ram_gb := pyRound estimated_ram 2
    available_ram_gb := available_ram
    is_valid := decide (estimated_ram ≤ (available_ram : ℚ))
    utilization_percent :=
      if 0 < available_ram then pyRound ((estimated_ram / (available_ram : ℚ)) * 100) 1
      else 0 }

/-- Default server created by InventoryService._ensure_server_exists
    (8 cores, 16GB RAM, 500GB disk, recommended_max 16). -/
def defaultServer (hostname : String) : Server :=
  { hostname := hostname
    specs := { cpu_cores := 8, ram_gb := 16, disk_gb := 500 }
    sites := []
    capacity := { current_sites := 0, recommended_max := 16,
                  status := ServerStatus.UNDER_CAPACITY } }

/-- InventoryService._ensure_server_exists. -/
def ensureServerExists (servers : List (String × Server)) (hostname : String) :
    List (String × Server) :=
  if (listGet servers hostname).isSome then servers
  else listSet servers hostname (defaultServer hostname)

/-- One CSV row: cells per column name; a missing value (pandas NaN /
    absent optional column) is none. The CSV loader itself is an
    external collaborator; this is its output interface. -/
abbrev CsvRow : Type := List (String × Option String)

/-- CSV document: the header columns and the data rows. -/
structure Csv where
  columns : List String
  rows : List CsvRow

/-- Cell access row[col] / row.get(col): none when the column or the
    value is absent. -/
def cellGet (row : CsvRow) (col : String) : Option String :=
  (listGet row col).join

/-- Site construction from the cells of one CSV row: a missing or
    invalid required cell is the ValidationError / KeyError the import
    loop catches. -/
def siteFromRow (row : CsvRow) : Except String Site :=
  match cellGet row "domain", cellGet row "server" with
  | some d, some sv =>
    Site.build { domain := d, server := sv,
                 container_name := cellGet row "container_name",
                 site_path := cellGet row "site_path" }
  | _, _ => Except.error "missing required cell"

/-- Import of one successfully validated site: upsert the Site by
    domain, ensure its server exists, and append the domain to that
    server (lines 86-90 and 119-123 of services/inventory.py). -/
def importOneSite (inv : Inventory) (site : Site) : Inventory :=
  let sites := listSet inv.sites site.domain site
  let servers := ensureServerExists inv.servers site.server
  let servers := listModify servers site.server (fun sv => sv.add_site site.domain)
  { sites := sites, servers := servers }

/-- Row loop of InventoryService.import_from_csv: per-row failures are
    counted and skipped, successes are imported. -/
def csvRowsGo (inv : Inventory) : List CsvRow → ℕ → ℕ → Inventory × ℕ × ℕ
  | [], imported, failed => (inv, imported, failed)
  | row :: rest, imported, failed =>
    match siteFromRow row with
    | Except.ok site => csvRowsGo (importOneSite inv site) rest (imported + 1) failed
    | Except.error _ => csvRowsGo inv rest imported (failed + 1)

/-- InventoryService.import_from_csv: the required-columns check runs
    before any row is processed and raises a ValueError; then rows are
    imported one at a time, and finally the capacity status of every
    server is refreshed. The error branch returns the inventory
    untouched and carries the raised message (the source formats the
    set of missing column names into the text; that rendering is
    abbreviated to the fixed message here). -/
def InventoryService.import_from_csv (inv : Inventory) (csv : Csv) :
    Inventory × Except String (ℕ × ℕ) :=
  if "domain" ∈ csv.columns ∧ "server" ∈ csv.columns then
    let r := csvRowsGo inv csv.rows 0 0
    let inv' := r.1
    let inv'' := { inv' with
      servers := inv'.servers.map (fun p => (p.1, p.2.update_capacity_status)) }
    (inv'', Except.ok r.2)
  else
    (inv, Except.error "CSV missing required columns")

/-- Row loop of InventoryService.import_from_json over the raw site
    records of the document. -/
def jsonRowsGo (inv : Inventory) : List SiteInput → ℕ → ℕ → Inventory × ℕ × ℕ
  | [], imported, failed => (inv, imported, failed)
  | rec :: rest, imported, failed =>
    match Site.build rec with
    | Except.ok site => jsonRowsGo (importOneSite inv site) rest (imported + 1) failed
    | Except.error _ => jsonRowsGo inv rest imported (failed + 1)

/-- InventoryService.import_from_json: like the CSV import but with no
    schema pre-check and no final capacity-status refresh. -/
def InventoryService.import_from_json (inv : Inventory) (records : List SiteInput) :
    Inventory × ℕ × ℕ :=
  jsonRowsGo inv records 0 0

/-! ## Deployer (services/deployer.py, models/deployment.py) -/

/-- DeploymentStatus enum (models/deployment.py). -/
inductive DeploymentStatus where
  | PENDING
  | IN_PROGRESS
  | COMPLETED
  | FAILED
  | ROLLED_BACK
deriving DecidableEq

/-- DeploymentAction (models/deployment.py); the timestamps are not
    part of any decision logic and are omitted. -/
structure DeploymentAction where
  site_domain : String
  from_tier : Option Tier := none
  to_tier : Tier
  status : DeploymentStatus := DeploymentStatus.PENDING
  error_message : Option String := none
deriving DecidableEq

/-- Structural equality of two character lists from the front. -/
def leadMatch : List Char → List Char → Bool
  | [], _ => true
  | _ :: _, [] => false
  | a :: as_, b :: bs => a = b && leadMatch as_ bs

/-- Substring test (the Python `in` on strings), by scanning every
    position of the haystack. -/
def strContains (hay needle : String) : Bool :=
  go needle.data hay.data
where
  go (n : List Char) : List Char → Bool
    | [] => leadMatch n []
    | c :: rest => leadMatch n (c :: rest) || go n rest

/-- Character-list split on a separator (str.split for one character). -/
def splitOnChar (sep : Char) : List Char → List (List Char)
  | [] => [[]]
  | x :: xs =>
    match splitOnChar sep xs with
    | [] => [[]]
    | h :: t => if x = sep then [] :: h :: t else (x :: h) :: t

/-- Last path component (pathlib Path.name). -/
def pathName (p : String) : String :=
  match (splitOnChar '/' p.data).getLast? with
  | none => p
  | some component => ⟨component⟩

/-- One service entry of a parsed docker-compose document, as the
    deployer reads it: its container_name (empty string when missing,
    as dict.get returns) and its volumes list of mount strings. -/
structure ComposeService where
  container_name : String := ""
  volumes : List String := []
deriving DecidableEq

/-- Parsed view of a compose file as the yaml collaborator returns it:
    none models `not data or "services" not in data`; a none service
    entry models a non-mapping value skipped by isinstance checks. -/
abbrev ComposeDoc : Type := List (String × Option ComposeService)

/-- One site's observable on-disk and process world, as the deploy of a
    single site reads it: the compose file (none when unreadable), its
    parsed view, whether the backup already exists, which tier source
    config files exist, and the outcomes of the two external
    docker-compose invocations (some stderr on failure). -/
structure DeployWorld where
  composeText : Option String
  composeDoc : Option ComposeDoc
  backupExists : Bool
  existingConfigs : List String
  downError : Option String := none
  upError : Option String := none

/-- Filesystem mutations a deployment performs (shutil.copy2 of the
    backup, shutil.copy2 of each config file, and the compose rewrite). -/
inductive FSWrite where
  | copyFile (src dst : String)
  | writeCompose (path : String) (doc : ComposeDoc)
deriving DecidableEq

/-- Marker mount checked by DeployerService._is_configured. -/
def configuredMarker : String :=
  "mpm_prefork.conf:/etc/apache2/mods-available/mpm_prefork.conf"

/-- DeployerService._is_configured: a substring check on the compose
    text; any read failure is caught and reported as not configured. -/
def is_configured (w : DeployWorld) : Bool :=
  match w.composeText with
  | none => false
  | some text => strContains text configuredMarker

/-- Tier filename suffix of get_tier_config_files: .tier followed by the integer tier value. -/
def tierSuffix : Tier → String
  | Tier.HIGH => ".tier1"
  | Tier.MEDIUM => ".tier2"
  | Tier.LOW => ".tier3"

/-- DeployerService.get_tier_config_files: pure path construction for
    the apache, php_fpm and php_limits config sources, in the original
    dict order. -/
def get_tier_config_files (config_dir : String) (tier : Tier) : List (String × String) :=
  [ (config_dir ++ "/mpm_prefork.conf" ++ tierSuffix tier, "mpm_prefork.conf"),
    (config_dir ++ "/php-fpm-pool.conf" ++ tierSuffix tier, "php-fpm-pool.conf"),
    (config_dir ++ "/php-limits.ini" ++ tierSuffix tier, "php-limits.ini") ]

/-- DeployerService._copy_config_files: each missing source file raises
    FileNotFoundError; otherwise each file is copied into the site
    directory under its destination name. -/
def copy_config_files (w : DeployWorld) (config_dir site_dir : String) (tier : Tier) :
    Except String (List FSWrite) :=
  go (get_tier_config_files config_dir tier)
where
  go : List (String × String) → Except String (List FSWrite)
    | [] => Except.ok []
    | (src, destName) :: rest =>
      if src ∈ w.existingConfigs then
        match go rest with
        | Except.ok effs => Except.ok (FSWrite.copyFile src (site_dir ++ "/" ++ destName) :: effs)
        | Except.error e => Except.error e
      else Except.error ("Configuration file not found: " ++ src)

/-- Bind-mount strings added by DeployerService._add_volume_mounts. -/
def volumeMounts : List String :=
  [ "./mpm_prefork.conf:/etc/apache2/mods-available/mpm_prefork.conf",
    "./php-fpm-pool.conf:/usr/local/etc/php-fpm.d/www.conf",
    "./php-limits.ini:/usr/local/etc/php/conf.d/99-limits.ini" ]

/-- Container-side path of a mount string: mount.split(":")[1]. -/
def mountContainerSide (mount : String) : String :=
  ⟨(splitOnChar ':' mount.data).getD 1 []⟩

/-- Volume rewrite of one WordPress service: drop every existing mount
    whose text contains one of the three container-side paths, then
    append the three new bind-mounts. -/
def rewriteService (s : ComposeService) : ComposeService :=
  { s with volumes :=
      (s.volumes.filter (fun v =>
        !(volumeMounts.any (fun m => strContains v (mountContainerSide m))))) ++ volumeMounts }

/-- DeployerService._add_volume_mounts: raise on an unreadable file or a
    document without services, rewrite every service whose
    container_name starts with "wp_", and write the compose file back. -/
def add_volume_mounts (w : DeployWorld) (compose_path : String) : Except String FSWrite :=
  match w.composeDoc with
  | none =>
    match w.composeText with
    | none => Except.error ("No such file or directory: " ++ compose_path)
    | some _ => Except.error "Invalid docker-compose.yml structure"
  | some doc =>
    Except.ok (FSWrite.writeCompose compose_path (doc.map (fun entry =>
      match entry.2 with
      | none => entry
      | some svc =>
        if leadMatch "wp_".data svc.container_name.data then (entry.1, some (rewriteService svc))
        else entry)))

/-- DeployerService._restart_containers: run docker compose down, then
    docker compose up -d; a failed call raises RuntimeError with the
    collaborator's stderr. -/
def restart_containers (w : DeployWorld) : Except String Unit :=
  match w.downError with
  | some stderr => Except.error ("Failed to restart containers: " ++ stderr)
  | none =>
    match w.upError with
    | some stderr => Except.error ("Failed to restart containers: " ++ stderr)
    | none => Except.ok ()

/-- DeployerService.deploy_to_site. The try/except of the source catches
    every exception of the body and returns the action as FAILED with
    the exception message, together with whatever filesystem mutations
    had already happened; it never re-raises, so the embedding is a
    total function into an action and an effect list. -/
def deploy_to_site (w : DeployWorld) (config_dir site_dir : String) (tier : Tier)
    (dry_run overwrite restart : Bool) : DeploymentAction × List FSWrite :=
  let site_name := pathName site_dir
  let compose_path := site_dir ++ "/docker-compose.yml"
  let action : DeploymentAction :=
    { site_domain := site_name, to_tier := tier, status := DeploymentStatus.PENDING }
  if is_configured w && !overwrite then
    ({ action with
        status := DeploymentStatus.COMPLETED
        error_message := some "Already configured (use --overwrite to update)" }, [])
  else if dry_run then
    ({ action with
        status := DeploymentStatus.COMPLETED
        error_message := some "Dry run - no changes made" }, [])
  else
    let backupEffs :=
      if !w.backupExists then [FSWrite.copyFile compose_path (site_dir ++ "/docker-compose.yml.bak")]
      else []
    match copy_config_files w config_dir site_dir tier with
    | Except.error e =>
      ({ action with status := DeploymentStatus.FAILED, error_message := some e }, backupEffs)
    | Except.ok copyEffs =>
      match add_volume_mounts w compose_path with
      | Except.error e =>
        ({ action with status := DeploymentStatus.FAILED, error_message := some e },
         backupEffs ++ copyEffs)
      | Except.ok writeEff =>
        if restart then
          match restart_containers w with
          | Except.error e =>
            ({ action with status := DeploymentStatus.FAILED, error_message := some e },
             backupEffs ++ copyEffs ++ [writeEff])
          | Except.ok _ =>
            ({ action with status := DeploymentStatus.COMPLETED },
             backupEffs ++ copyEffs ++ [writeEff])
        else
          ({ action with status := DeploymentStatus.COMPLETED },
           backupEffs ++ copyEffs ++ [writeEff])

/-! ## Server site-membership operations as sequences (for the add/remove invariant) -/

/-- One membership operation on a server's sites list. -/
inductive SiteOp where
  | add (domain : String)
  | remove (domain : String)

/-- Apply one add_site / remove_site call. -/
def applyOp (s : Server) : SiteOp → Server
  | SiteOp.add d => s.add_site d
  | SiteOp.remove d => s.remove_site d

/-- Apply a sequence of add_site / remove_site calls in order. -/
def applyOps (s : Server) (ops : List SiteOp) : Server :=
  ops.foldl applyOp s

/-- Consistency invariant of models/server.py: the cached counter
    matches the list, and the list is duplicate-free. -/
abbrev ServerInvariant (s : Server) : Prop :=
  s.capacity.current_sites = s.sites.length ∧ s.sites.Nodup

/-! ## Concrete fixtures used by witness theorems -/

/-- Thresholds used throughout the repository tests (10000 / 1000). -/
def wConfig : ClassifierConfig := { tier1_threshold := 10000, tier2_threshold := 1000 }

/-- High-traffic example site, mirroring the classifier test data. -/
def wSiteHigh : Site :=
  { domain := "bigsite.com"
    server := "server01.example.com"
    traffic := some { daily_visitors := 15000, page_views := 45000,
                      bounce_rate := 2/5, avg_session_duration := 180 } }

/-- Example server at 13 of 16 recommended sites (utilization 81.25). -/
def wServer : Server :=
  { hostname := "server01.example.com"
    specs := { cpu_cores := 8, ram_gb := 16, disk_gb := 500 }
    sites := ["a.com", "b.com"]
    capacity := { current_sites := 13, recommended_max := 16,
                  status := ServerStatus.UNDER_CAPACITY } }

/-- Small-RAM server (4GB) with no sites, for the capacity counterexample. -/
def wServer4 : Server :=
  { hostname := "tiny.example.com"
    specs := { cpu_cores := 8, ram_gb := 4, disk_gb := 500 }
    sites := []
    capacity := { current_sites := 0, recommended_max := 16,
                  status := ServerStatus.UNDER_CAPACITY } }

/-- Stored site record for the lookup-normalization witnesses. -/
def wSiteStored : Site := { domain := "example.com", server := "old.example" }

/-- Replacement site produced by re-importing the domain under a new server. -/
def wSiteMoved : Site := { domain := "example.com", server := "new.example" }

/-- Old server that currently lists the stored domain. -/
def wServerOld : Server :=
  { hostname := "old.example"
    specs := { cpu_cores := 8, ram_gb := 16, disk_gb := 500 }
    sites := ["example.com"]
    capacity := { current_sites := 1, recommended_max := 16,
                  status := ServerStatus.UNDER_CAPACITY } }

/-- Inventory with one site stored under its normalized domain and one server. -/
def wInv : Inventory :=
  { sites := [("example.com", wSiteStored)]
    servers := [("old.example", wServerOld)] }

/-- Server whose cached counter matches its two sites, for the
    add/remove invariant witness. -/
def wServerSmall : Server :=
  { hostname := "server02.example.com"
    specs := { cpu_cores := 8, ram_gb := 16, disk_gb := 500 }
    sites := ["a.com", "b.com"]
    capacity := { current_sites := 2, recommended_max := 16,
                  status := ServerStatus.UNDER_CAPACITY } }

/-- CSV with a domain header but no server header, for the schema-error witness. -/
def wCsvMissing : Csv :=
  { columns := ["domain"], rows := [[("domain", some "a.com")]] }

/-- CSV re-importing the stored domain under a new server. -/
def wCsvMove : Csv :=
  { columns := ["domain", "server"]
    rows := [[("domain", some "example.com"), ("server", some "new.example")]] }

/-- One-row CSV that re-imports the domain d under the server s2. -/
def moveCsv (d s2 : String) : Csv :=
  { columns := ["domain", "server"]
    rows := [[("domain", some d), ("server", some s2)]] }

/-- One-record JSON document that re-imports the domain d under s2. -/
def moveJson (d s2 : String) : List SiteInput :=
  [{ domain := d, server := s2 }]

/-- Deployment world in which the site is not yet configured, every
    tier-1 source config exists, and the docker compose down call fails. -/
def wWorld : DeployWorld :=
  { composeText := some "services wp_site image volumes"
    composeDoc := some [("wordpress", some { container_name := "wp_site", volumes := [] })]
    backupExists := false
    existingConfigs := ["/cfg/mpm_prefork.conf.tier1", "/cfg/php-fpm-pool.conf.tier1",
                        "/cfg/php-limits.ini.tier1"]
    downError := some "boom"
    upError := none }

/-- Copy effects of a tier-1 deployment from /cfg into the example site. -/
def wCopyEffs : List FSWrite :=
  [ FSWrite.copyFile "/cfg/mpm_prefork.conf.tier1" "/var/opt/sites/a.com/mpm_prefork.conf",
    FSWrite.copyFile "/cfg/php-fpm-pool.conf.tier1" "/var/opt/sites/a.com/php-fpm-pool.conf",
    FSWrite.copyFile "/cfg/php-limits.ini.tier1" "/var/opt/sites/a.com/php-limits.ini" ]

/-- Compose rewrite effect of deploying the example site. -/
def wWriteEff : FSWrite :=
  FSWrite.writeCompose "/var/opt/sites/a.com/docker-compose.yml"
    [("wordpress", some { container_name := "wp_site", volumes := volumeMounts })]

/-! ## Helper lemmas -/

/-- Rounding zero to any digit count gives zero. -/
lemma pyRound_zero (n : ℕ) : pyRound 0 n = 0 := by
  simp [pyRound, roundHalfEven]

/-! ## C1: classify_site thresholds -/

/-- C1: classifySite of a Site without traffic is LOW; with traffic,
    daily_visitors at or above tier1Threshold is exactly HIGH, between
    tier2Threshold and tier1Threshold exactly MEDIUM, and below
    tier2Threshold exactly LOW. The function is pure: it takes only the
    thresholds and the site and returns a Tier, so it cannot touch the
    site or the inventory. -/
theorem classify_site_spec_C1 (c : ClassifierConfig) (site : Site) (ts : TrafficStats)
    (horder : c.tier2_threshold ≤ c.tier1_threshold) :
    (site.traffic = none → classify_site c site = Tier.LOW) ∧
    (site.traffic = some ts →
      ((classify_site c site = Tier.HIGH ↔ c.tier1_threshold ≤ (ts.daily_visitors : ℤ)) ∧
       (classify_site c site = Tier.MEDIUM ↔
         (c.tier2_threshold ≤ (ts.daily_visitors : ℤ) ∧
          (ts.daily_visitors : ℤ) < c.tier1_threshold)) ∧
       (classify_site c site = Tier.LOW ↔ (ts.daily_visitors : ℤ) < c.tier2_threshold))) := by
  constructor
  · intro h
    simp [classify_site, h]
  · intro h
    simp only [classify_site, h]
    split_ifs with h1 h2 <;> refine ⟨?_, ?_, ?_⟩ <;> simp <;> omega

/-- Witness for C1 at the test thresholds of the repository and a
    15000-visitor site. -/
theorem classify_site_spec_C1_witness :
    (classify_site wConfig wSiteHigh = Tier.HIGH ↔
        wConfig.tier1_threshold ≤ (15000 : ℤ)) ∧
    (classify_site wConfig wSiteHigh = Tier.MEDIUM ↔
        (wConfig.tier2_threshold ≤ (15000 : ℤ) ∧ (15000 : ℤ) < wConfig.tier1_threshold)) ∧
    (classify_site wConfig wSiteHigh = Tier.LOW ↔ (15000 : ℤ) < wConfig.tier2_threshold) :=
  (classify_site_spec_C1 wConfig wSiteHigh
      { daily_visitors := 15000, page_views := 45000,
        bounce_rate := 2/5, avg_session_duration := 180 }
      (by decide)).2 rfl

/-! ## C4: update_capacity_status bands -/

/-- C4: after update_capacity_status the status is derived from
    utilization = current_sites / recommended_max * 100 with the exact
    bands of the claim, boundaries included: under 80 UNDER_CAPACITY,
    80 to 100 inclusive OPTIMAL, strictly between 100 and 125
    OVER_CAPACITY, 125 and above CRITICAL. -/
theorem update_capacity_status_bands_C4 (s : Server)
    (hmax : 0 < s.capacity.recommended_max) :
    s.capacity.utilization_percent
        = ((s.capacity.current_sites : ℚ) / (s.capacity.recommended_max : ℚ)) * 100 ∧
    ((s.update_capacity_status).capacity.status = ServerStatus.UNDER_CAPACITY ↔
        s.capacity.utilization_percent < 80) ∧
    ((s.update_capacity_status).capacity.status = ServerStatus.OPTIMAL ↔
        (80 ≤ s.capacity.utilization_percent ∧ s.capacity.utilization_percent ≤ 100)) ∧
    ((s.update_capacity_status).capacity.status = ServerStatus.OVER_CAPACITY ↔
        (100 < s.capacity.utilization_percent ∧ s.capacity.utilization_percent < 125)) ∧
    ((s.update_capacity_status).capacity.status = ServerStatus.CRITICAL ↔
        125 ≤ s.capacity.utilization_percent) := by
  refine ⟨?_, ?_⟩
  · unfold ServerCapacity.utilization_percent
    rw [if_neg (Nat.pos_iff_ne_zero.mp hmax)]
  · simp only [Server.update_capacity_status]
    set u := s.capacity.utilization_percent with hu
    split_ifs with h1 h2 h3 <;> refine ⟨?_, ?_, ?_, ?_⟩ <;> simp <;>
      first
        | linarith
        | (intro h; linarith)
        | (constructor <;> linarith)

/-- Witness for C4 at a server with 13 of 16 recommended sites. -/
theorem update_capacity_status_bands_C4_witness :
    wServer.capacity.utilization_percent
        = ((wServer.capacity.current_sites : ℚ) / (wServer.capacity.recommended_max : ℚ)) * 100 ∧
    ((wServer.update_capacity_status).capacity.status = ServerStatus.UNDER_CAPACITY ↔
        wServer.capacity.utilization_percent < 80) ∧
    ((wServer.update_capacity_status).capacity.status = ServerStatus.OPTIMAL ↔
        (80 ≤ wServer.capacity.utilization_percent ∧ wServer.capacity.utilization_percent ≤ 100)) ∧
    ((wServer.update_capacity_status).capacity.status = ServerStatus.OVER_CAPACITY ↔
        (100 < wServer.capacity.utilization_percent ∧ wServer.capacity.utilization_percent < 125)) ∧
    ((wServer.update_capacity_status).capacity.status = ServerStatus.CRITICAL ↔
        125 ≤ wServer.capacity.utilization_percent) :=
  update_capacity_status_bands_C4 wServer (by decide)

/-! ## C7: dry-run deployment performs no filesystem mutation -/

/-- C7: deployToSite with dryRun true emits no filesystem effect at all
    (no backup copy, no config copy, no compose write) and returns a
    COMPLETED action carrying either the dry-run message or, when the
    configured check fires first, the already-configured message. -/
theorem deploy_dry_run_no_writes_C7 (w : DeployWorld) (config_dir site_dir : String)
    (tier : Tier) (overwrite restart : Bool) :
    (deploy_to_site w config_dir site_dir tier true overwrite restart).2 = [] ∧
    (deploy_to_site w config_dir site_dir tier true overwrite restart).1.status
        = DeploymentStatus.COMPLETED ∧
    ((deploy_to_site w config_dir site_dir tier true overwrite restart).1.error_message
        = some "Dry run - no changes made" ∨
     (deploy_to_site w config_dir site_dir tier true overwrite restart).1.error_message
        = some "Already configured (use --overwrite to update)") := by
  unfold deploy_to_site
  by_cases h : (is_configured w && !overwrite) = true
  · simp [h]
  · simp [h]

/-! ## C3: validate_server_capacity with zero assigned sites -/

/-- C3 counterexample: a server with no assigned sites and positive
    ram_gb = 4 reports is_valid = false (estimated 0 is not at most the
    negative available_ram 4 - 5), refuting the claim that zero assigned
    sites always gives is_valid = true for any positive ram_gb; the
    utilization_percent = 0 part does hold. -/
theorem validate_capacity_zero_assigned_C3_counterexample :
    0 < wServer4.specs.ram_gb ∧
    (validate_server_capacity [] wServer4).is_valid = false ∧
    (validate_server_capacity [] wServer4).utilization_percent = 0 := by
  refine ⟨by decide, ?_, ?_⟩ <;>
    simp [validate_server_capacity, InventoryService.list_sites, countAssigned, wServer4]

/-- C3 amended: for a server none of whose inventory sites has an
    assigned tier, utilization_percent is 0, and is_valid is true
    exactly when ram_gb is at least the fixed 5GB reservation (for
    ram_gb of 1 to 4 the available RAM is negative and is_valid is
    false). -/
theorem validate_capacity_zero_assigned_C3 (sites : List Site) (server : Server)
    (hall : ∀ s ∈ sites, s.assigned_tier = none) :
    (validate_server_capacity sites server).utilization_percent = 0 ∧
    ((validate_server_capacity sites server).is_valid = true ↔ 5 ≤ server.specs.ram_gb) := by
  have hcount : ∀ t : Tier,
      countAssigned (InventoryService.list_sites sites (some server.hostname) none) t = 0 := by
    intro t
    apply List.countP_eq_zero.mpr
    intro s hs
    simp only [InventoryService.list_sites] at hs
    have hmem : s ∈ sites := (List.mem_filter.mp hs).1
    simp [hall s hmem]
  constructor
  · simp only [validate_server_capacity, hcount]
    simp [pyRound_zero]
  · simp only [validate_server_capacity, hcount]
    simp only [Nat.cast_zero, zero_mul, add_zero, zero_add, decide_eq_true_eq]
    constructor
    · intro h
      have h' : (0:ℤ) ≤ (server.specs.ram_gb : ℤ) - 5 := by exact_mod_cast h
      omega
    · intro h
      have h' : (0:ℤ) ≤ (server.specs.ram_gb : ℤ) - 5 := by omega
      exact_mod_cast h'

/-- Witness for the amended C3 at an empty inventory and a 16GB server. -/
theorem validate_capacity_zero_assigned_C3_witness :
    (validate_server_capacity [] wServer).utilization_percent = 0 ∧
    ((validate_server_capacity [] wServer).is_valid = true ↔ 5 ≤ wServer.specs.ram_gb) :=
  validate_capacity_zero_assigned_C3 [] wServer (by simp)

/-! ## C2: a restart failure does not escape deploy_to_site -/

/-- C2 counterexample: in a world where the site is unconfigured, every
    tier config exists, the compose document parses, and the docker
    compose down call fails with stderr boom, deploy_to_site with
    restart requested returns normally with a FAILED action carrying the
    RuntimeError message — the failure is converted into a returned
    result, refuting the claim that it propagates (raises) out of the
    call. The deploy_to_site embedding is a total function precisely
    because the source wraps its whole body in except Exception. -/
theorem deploy_restart_failure_C2_counterexample :
    (deploy_to_site wWorld "/cfg" "/var/opt/sites/a.com" Tier.HIGH false false true).1.status
        = DeploymentStatus.FAILED ∧
    (deploy_to_site wWorld "/cfg" "/var/opt/sites/a.com" Tier.HIGH false false true).1.error_message
        = some "Failed to restart containers: boom" ∧
    restart_containers wWorld = Except.error "Failed to restart containers: boom" :=
  ⟨by decide, by decide, rfl⟩

/-- C2 amended: when restart is requested and the restart collaborator
    fails, _restart_containers raises RuntimeError, but deploy_to_site
    catches it and returns the action as FAILED with that message;
    nothing propagates out of deploy_to_site. -/
theorem deploy_restart_failure_returns_failed_C2 (w : DeployWorld)
    (config_dir site_dir : String) (tier : Tier) (overwrite : Bool)
    (copyEffs : List FSWrite) (writeEff : FSWrite) (e : String)
    (hnc : (is_configured w && !overwrite) = false)
    (hcopy : copy_config_files w config_dir site_dir tier = Except.ok copyEffs)
    (hmounts : add_volume_mounts w (site_dir ++ "/docker-compose.yml") = Except.ok writeEff)
    (hfail : restart_containers w = Except.error e) :
    (deploy_to_site w config_dir site_dir tier false overwrite true).1.status
        = DeploymentStatus.FAILED ∧
    (deploy_to_site w config_dir site_dir tier false overwrite true).1.error_message = some e := by
  unfold deploy_to_site
  simp [hnc, hcopy, hmounts, hfail]

/-- Witness for the amended C2 in the concrete failing world. -/
theorem deploy_restart_failure_returns_failed_C2_witness :
    (deploy_to_site wWorld "/cfg" "/var/opt/sites/a.com" Tier.HIGH false false true).1.status
        = DeploymentStatus.FAILED ∧
    (deploy_to_site wWorld "/cfg" "/var/opt/sites/a.com" Tier.HIGH false false true).1.error_message
        = some "Failed to restart containers: boom" :=
  deploy_restart_failure_returns_failed_C2 wWorld "/cfg" "/var/opt/sites/a.com" Tier.HIGH false
    wCopyEffs wWriteEff "Failed to restart containers: boom" (by decide) rfl rfl rfl

/-! ## C8: add_site / remove_site keep the counter and uniqueness invariant -/

/-- Membership is preserved backwards through removal of one element. -/
lemma mem_of_mem_removeFirst {d x : String} :
    ∀ {l : List String}, x ∈ removeFirst d l → x ∈ l := by
  intro l
  induction l with
  | nil => intro h; simp [removeFirst] at h
  | cons a as ih =>
    intro h
    simp only [removeFirst] at h
    by_cases had : a = d
    · rw [if_pos had] at h
      exact List.mem_cons_of_mem _ h
    · rw [if_neg had] at h
      rcases List.mem_cons.mp h with h1 | h2
      · exact h1 ▸ List.mem_cons_self _ _
      · exact List.mem_cons_of_mem _ (ih h2)

/-- Removing one element preserves duplicate-freedom. -/
lemma nodup_removeFirst (d : String) :
    ∀ {l : List String}, l.Nodup → (removeFirst d l).Nodup := by
  intro l
  induction l with
  | nil => intro _; simp [removeFirst]
  | cons a as ih =>
    intro h
    rcases List.nodup_cons.mp h with ⟨hna, hnd⟩
    simp only [removeFirst]
    by_cases had : a = d
    · rw [if_pos had]; exact hnd
    · rw [if_neg had]
      exact List.nodup_cons.mpr ⟨fun hmem => hna (mem_of_mem_removeFirst hmem), ih hnd⟩

/-- One add_site or remove_site call preserves the invariant. -/
lemma serverInvariant_applyOp (s : Server) (op : SiteOp) (h : ServerInvariant s) :
    ServerInvariant (applyOp s op) := by
  rcases h with ⟨hc, hn⟩
  cases op with
  | add d =>
    simp only [applyOp, Server.add_site]
    by_cases hd : d ∈ s.sites
    · rw [if_pos hd]; exact ⟨hc, hn⟩
    · rw [if_neg hd]
      refine ⟨rfl, ?_⟩
      simp [List.nodup_append, hn, hd]
  | remove d =>
    simp only [applyOp, Server.remove_site]
    by_cases hd : d ∈ s.sites
    · rw [if_pos hd]; exact ⟨rfl, nodup_removeFirst d hn⟩
    · rw [if_neg hd]; exact ⟨hc, hn⟩

/-- Any sequence of add_site / remove_site calls preserves the invariant. -/
lemma serverInvariant_applyOps (ops : List SiteOp) :
    ∀ s : Server, ServerInvariant s → ServerInvariant (applyOps s ops) := by
  induction ops with
  | nil => intro s h; exact h
  | cons op rest ih => intro s h; exact ih (applyOp s op) (serverInvariant_applyOp s op h)

/-- C8: from a state where current_sites equals the list length and the
    sites list has no duplicates, every sequence of add_site and
    remove_site calls preserves both facts, and adding a present domain
    or removing an absent one leaves the server entirely unchanged. -/
theorem server_sites_invariant_C8 (s : Server) (ops : List SiteOp) (d : String)
    (h : ServerInvariant s) :
    ServerInvariant (applyOps s ops) ∧
    (d ∈ s.sites → s.add_site d = s) ∧
    (d ∉ s.sites → s.remove_site d = s) := by
  refine ⟨serverInvariant_applyOps ops s h, ?_, ?_⟩
  · intro hd
    unfold Server.add_site
    rw [if_pos hd]
  · intro hd
    unfold Server.remove_site
    rw [if_neg hd]

/-- Witness for C8 on a consistent two-site server with one add and one
    remove. -/
theorem server_sites_invariant_C8_witness :
    ServerInvariant (applyOps wServerSmall [SiteOp.add "c.com", SiteOp.remove "a.com"]) ∧
    ("x.com" ∈ wServerSmall.sites → wServerSmall.add_site "x.com" = wServerSmall) ∧
    ("x.com" ∉ wServerSmall.sites → wServerSmall.remove_site "x.com" = wServerSmall) :=
  server_sites_invariant_C8 wServerSmall [SiteOp.add "c.com", SiteOp.remove "a.com"] "x.com"
    (by constructor <;> decide)

/-! ## C5: classify_all with overwrite false is idempotent -/

/-- classifyAllGo preserves the number of sites. -/
lemma classifyAllGo_length (c : ClassifierConfig) (ow : Bool) :
    ∀ (l : List Site) (acc : ClassifyCounts),
      (classifyAllGo c ow l acc).1.length = l.length := by
  intro l
  induction l with
  | nil => intro acc; rfl
  | cons s rest ih =>
    intro acc
    simp only [classifyAllGo]
    by_cases hc : (s.assigned_tier.isSome && !ow) = true
    · rw [if_pos hc]; simp [ih]
    · rw [if_neg hc]; simp [ih]

/-- After a classify_all pass with overwrite false every site carries an
    assigned tier. -/
lemma classifyAllGo_all_some (c : ClassifierConfig) :
    ∀ (l : List Site) (acc : ClassifyCounts),
      ∀ s ∈ (classifyAllGo c false l acc).1, s.assigned_tier.isSome := by
  intro l
  induction l with
  | nil => intro acc s hs; simp [classifyAllGo] at hs
  | cons a rest ih =>
    intro acc s hs
    simp only [classifyAllGo] at hs
    by_cases hc : (a.assigned_tier.isSome && !false) = true
    · rw [if_pos hc] at hs
      rcases List.mem_cons.mp hs with h1 | h2
      · rw [h1]
        simpa using hc
      · exact ih _ s h2
    · rw [if_neg hc] at hs
      rcases List.mem_cons.mp hs with h1 | h2
      · rw [h1]; rfl
      · exact ih _ s h2

/-- When every site already carries a tier, a classify_all pass with
    overwrite false only counts skips and returns the list unchanged. -/
lemma classifyAllGo_skip_all (c : ClassifierConfig) :
    ∀ (l : List Site) (acc : ClassifyCounts),
      (∀ s ∈ l, s.assigned_tier.isSome) →
      classifyAllGo c false l acc = (l, { acc with skipped := acc.skipped + l.length }) := by
  intro l
  induction l with
  | nil => intro acc _; simp [classifyAllGo]
  | cons a rest ih =>
    intro acc h
    have ha : a.assigned_tier.isSome = true := h a (List.mem_cons_self a rest)
    simp only [classifyAllGo]
    rw [if_pos (by simp [ha])]
    rw [ih _ (fun s hs => h s (List.mem_cons_of_mem a hs))]
    simp only [Prod.mk.injEq, ClassifyCounts.mk.injEq, and_true, true_and, and_self,
      List.length_cons]
    omega

/-- C5: running classify_all with overwrite false twice is idempotent:
    the second run leaves every site (in particular every assigned_tier)
    unchanged and reports zero classified and a skip for each of the
    sites. -/
theorem classify_all_idempotent_C5 (c : ClassifierConfig) (sites : List Site) :
    classify_all c (classify_all c sites false).1 false
      = ((classify_all c sites false).1,
         { classified := 0, skipped := sites.length, tier1 := 0, tier2 := 0, tier3 := 0 }) := by
  have hall := classifyAllGo_all_some c sites ⟨0, 0, 0, 0, 0⟩
  have hlen := classifyAllGo_length c false sites ⟨0, 0, 0, 0, 0⟩
  unfold classify_all
  rw [classifyAllGo_skip_all c _ _ hall]
  simp [hlen]

/-! ## C6: CSV import with a missing required column is atomic -/

/-- C6: when the header lacks domain or server, import_from_csv raises
    its schema ValueError and the inventory is returned untouched;
    moreover the outcome is identical with the data rows deleted, so the
    check really happens before any row is processed. -/
theorem import_csv_missing_column_C6 (inv : Inventory) (csv : Csv)
    (h : ¬("domain" ∈ csv.columns ∧ "server" ∈ csv.columns)) :
    InventoryService.import_from_csv inv csv
        = (inv, Except.error "CSV missing required columns") ∧
    InventoryService.import_from_csv inv { csv with rows := [] }
        = (inv, Except.error "CSV missing required columns") := by
  constructor <;>
  · unfold InventoryService.import_from_csv
    rw [if_neg h]

/-- Witness for C6 on a CSV whose header has only the domain column. -/
theorem import_csv_missing_column_C6_witness :
    InventoryService.import_from_csv { sites := [], servers := [] } wCsvMissing
        = ({ sites := [], servers := [] }, Except.error "CSV missing required columns") ∧
    InventoryService.import_from_csv { sites := [], servers := [] } { wCsvMissing with rows := [] }
        = ({ sites := [], servers := [] }, Except.error "CSV missing required columns") :=
  import_csv_missing_column_C6 { sites := [], servers := [] } wCsvMissing (by decide)

/-! ## C10: lookups use the raw key while stored keys are normalized -/

/-- Successful association-list lookup implies membership of the pair. -/
lemma listGet_mem {α : Type} :
    ∀ {l : List (String × α)} {k : String} {v : α}, listGet l k = some v → (k, v) ∈ l := by
  intro l
  induction l with
  | nil => intro k v h; simp [listGet] at h
  | cons p rest ih =>
    intro k v h
    obtain ⟨k', v'⟩ := p
    simp only [listGet] at h
    by_cases he : k' = k
    · rw [if_pos he] at h
      cases h
      rw [he]
      exact List.mem_cons_self _ _
    · rw [if_neg he] at h
      exact List.mem_cons_of_mem _ (ih h)

/-- C10: when every stored domain key is a fixed point of the
    normalization the validators apply, looking a site up by a different
    spelling q of a stored domain d (same normalization, raw strings
    unequal — an upper-case or whitespace-padded spelling) finds
    nothing: get_site returns none and set_tier raises its not-found
    ValueError, even though the site is stored and found under d. -/
theorem lookup_raw_key_C10 (inv : Inventory) (d q : String) (site0 : Site) (t : Tier)
    (hnorm : ∀ p ∈ inv.sites, normalizeKey p.1 = p.1)
    (hd : listGet inv.sites d = some site0)
    (hq : normalizeKey q = d) (hne : q ≠ d) :
    InventoryService.get_site inv q = none ∧
    set_tier inv q t = Except.error ("Site not found: " ++ q) ∧
    InventoryService.get_site inv d = some site0 := by
  have hqnone : listGet inv.sites q = none := by
    cases hgo : listGet inv.sites q with
    | none => rfl
    | some v =>
      exfalso
      have hmem := listGet_mem hgo
      have hfix : normalizeKey q = q := hnorm (q, v) hmem
      exact hne (hfix.symm.trans hq)
  refine ⟨hqnone, ?_, hd⟩
  unfold set_tier InventoryService.get_site
  rw [hqnone]

/-- Witness for C10: the stored domain example.com is not found under
    the spelling EXAMPLE.COM. -/
theorem lookup_raw_key_C10_witness :
    InventoryService.get_site wInv "EXAMPLE.COM" = none ∧
    set_tier wInv "EXAMPLE.COM" Tier.HIGH
        = Except.error ("Site not found: " ++ "EXAMPLE.COM") ∧
    InventoryService.get_site wInv "example.com" = some wSiteStored :=
  lookup_raw_key_C10 wInv "example.com" "EXAMPLE.COM" wSiteStored Tier.HIGH
    (by decide) rfl (by decide) (by decide)

/-! ## C9: an import never removes a domain from the old server -/

/-- Lookup after a dict assignment under the same key. -/
lemma listGet_listSet_self {α : Type} :
    ∀ (l : List (String × α)) (k : String) (v : α), listGet (listSet l k v) k = some v := by
  intro l
  induction l with
  | nil => intro k v; simp [listSet, listGet]
  | cons p rest ih =>
    intro k v
    obtain ⟨a, b⟩ := p
    simp only [listSet]
    by_cases he : a = k
    · rw [if_pos he]; simp [listGet, he]
    · rw [if_neg he]
      simp only [listGet]
      rw [if_neg he]
      exact ih k v

/-- Lookup under a different key is unchanged by a dict assignment. -/
lemma listGet_listSet_ne {α : Type} :
    ∀ (l : List (String × α)) (k k' : String) (v : α), k' ≠ k →
      listGet (listSet l k v) k' = listGet l k' := by
  intro l
  induction l with
  | nil =>
    intro k k' v h
    simp only [listSet, listGet]
    rw [if_neg (fun hh => h hh.symm)]
  | cons p rest ih =>
    intro k k' v h
    obtain ⟨a, b⟩ := p
    simp only [listSet]
    by_cases he : a = k
    · rw [if_pos he]
      simp only [listGet]
      by_cases ha : a = k'
      · exact absurd (ha.symm.trans he) h
      · rw [if_neg ha, if_neg ha]
    · rw [if_neg he]
      simp only [listGet]
      by_cases ha : a = k'
      · rw [if_pos ha, if_pos ha]
      · rw [if_neg ha, if_neg ha]
        exact ih k k' v h

/-- In-place mutation rewrites the stored value under its key. -/
lemma listGet_listModify_self {α : Type} (f : α → α) :
    ∀ (l : List (String × α)) (k : String) (v : α), listGet l k = some v →
      listGet (listModify l k f) k = some (f v) := by
  intro l
  induction l with
  | nil => intro k v h; simp [listGet] at h
  | cons p rest ih =>
    intro k v h
    obtain ⟨a, b⟩ := p
    simp only [listGet] at h
    simp only [listModify]
    by_cases he : a = k
    · rw [if_pos he] at h ⊢
      cases h
      simp only [listGet]
      rw [if_pos he]
    · rw [if_neg he] at h ⊢
      simp only [listGet]
      rw [if_neg he]
      exact ih k v h

/-- In-place mutation leaves other keys untouched. -/
lemma listGet_listModify_ne {α : Type} (f : α → α) :
    ∀ (l : List (String × α)) (k k' : String), k' ≠ k →
      listGet (listModify l k f) k' = listGet l k' := by
  intro l
  induction l with
  | nil => intro k k' h; rfl
  | cons p rest ih =>
    intro k k' h
    obtain ⟨a, b⟩ := p
    simp only [listModify]
    by_cases he : a = k
    · rw [if_pos he]
      simp only [listGet]
      by_cases ha : a = k'
      · exact absurd (ha.symm.trans he) h
      · rw [if_neg ha, if_neg ha]
    · rw [if_neg he]
      simp only [listGet]
      by_cases ha : a = k'
      · rw [if_pos ha, if_pos ha]
      · rw [if_neg ha, if_neg ha]
        exact ih k k' h

/-- Lookup commutes with mapping a function over the stored values. -/
lemma listGet_map_update {α : Type} (g : α → α) :
    ∀ (l : List (String × α)) (k : String),
      listGet (l.map (fun p => (p.1, g p.2))) k = (listGet l k).map g := by
  intro l
  induction l with
  | nil => intro k; rfl
  | cons p rest ih =>
    intro k
    obtain ⟨a, b⟩ := p
    simp only [List.map_cons, listGet]
    by_cases he : a = k
    · rw [if_pos he, if_pos he]; rfl
    · rw [if_neg he, if_neg he]; exact ih k

/-- Ensuring one server leaves other hostnames untouched. -/
lemma ensure_get_ne (servers : List (String × Server)) (h k : String) (hk : k ≠ h) :
    listGet (ensureServerExists servers h) k = listGet servers k := by
  unfold ensureServerExists
  split_ifs with hs
  · rfl
  · exact listGet_listSet_ne servers h k (defaultServer h) hk

/-- After ensuring a server its hostname resolves to some record. -/
lemma ensure_get_self (servers : List (String × Server)) (h : String) :
    ∃ r, listGet (ensureServerExists servers h) h = some r := by
  unfold ensureServerExists
  split_ifs with hs
  · obtain ⟨r, hr⟩ := Option.isSome_iff_exists.mp hs
    exact ⟨r, hr⟩
  · exact ⟨defaultServer h, listGet_listSet_self servers h (defaultServer h)⟩

/-- add_site always leaves the domain a member afterwards. -/
lemma add_site_mem (s : Server) (d : String) : d ∈ (s.add_site d).sites := by
  unfold Server.add_site
  split_ifs with h
  · exact h
  · simp

/-- update_capacity_status only rewrites the status field: sites kept. -/
lemma update_status_sites (s : Server) : (s.update_capacity_status).sites = s.sites := by
  simp only [Server.update_capacity_status]
  split_ifs <;> rfl

/-- update_capacity_status only rewrites the status field: counter kept. -/
lemma update_status_current (s : Server) :
    (s.update_capacity_status).capacity.current_sites = s.capacity.current_sites := by
  simp only [Server.update_capacity_status]
  split_ifs <;> rfl

/-- C9: re-importing a domain that already lives under server s1 with a
    row naming a different server s2 (via CSV or JSON) replaces the Site
    record's server field with s2, yet the old server's sites list and
    its current_sites counter are left untouched — the domain is then a
    member of both servers' sites lists. Hypotheses describe the stored
    state (with keys normalized, as the validators guarantee) and the
    successful validation of the imported row. -/
theorem import_replaces_site_keeps_old_server_C9
    (inv : Inventory) (d s1 s2 : String) (site0 site' : Site) (srv1 : Server)
    (_hd : listGet inv.sites d = some site0)
    (_hsite0 : site0.server = s1)
    (hs1 : listGet inv.servers s1 = some srv1)
    (hmem : d ∈ srv1.sites)
    (hne : s2 ≠ s1)
    (hbuild : Site.build { domain := d, server := s2 } = Except.ok site')
    (hdom : site'.domain = d) (hser : site'.server = s2) :
    (∃ st, listGet (InventoryService.import_from_csv inv (moveCsv d s2)).1.sites d = some st ∧
        st.server = s2) ∧
    (∃ v1, listGet (InventoryService.import_from_csv inv (moveCsv d s2)).1.servers s1 = some v1 ∧
        d ∈ v1.sites ∧ v1.sites = srv1.sites ∧
        v1.capacity.current_sites = srv1.capacity.current_sites) ∧
    (∃ v2, listGet (InventoryService.import_from_csv inv (moveCsv d s2)).1.servers s2 = some v2 ∧
        d ∈ v2.sites) ∧
    (∃ st, listGet (InventoryService.import_from_json inv (moveJson d s2)).1.sites d = some st ∧
        st.server = s2) ∧
    (∃ v1, listGet (InventoryService.import_from_json inv (moveJson d s2)).1.servers s1 = some v1 ∧
        d ∈ v1.sites ∧ v1.sites = srv1.sites ∧
        v1.capacity.current_sites = srv1.capacity.current_sites) ∧
    (∃ v2, listGet (InventoryService.import_from_json inv (moveJson d s2)).1.servers s2 = some v2 ∧
        d ∈ v2.sites) := by
  have hrow : siteFromRow [("domain", some d), ("server", some s2)] = Except.ok site' := hbuild
  have hs1s2 : s1 ≠ s2 := Ne.symm hne
  have hcsv : (InventoryService.import_from_csv inv (moveCsv d s2)).1
      = { sites := listSet inv.sites d site'
          servers := (listModify (ensureServerExists inv.servers s2) s2
              (fun sv => sv.add_site d)).map
            (fun p => (p.1, p.2.update_capacity_status)) } := by
    unfold InventoryService.import_from_csv
    rw [if_pos (show "domain" ∈ (moveCsv d s2).columns ∧ "server" ∈ (moveCsv d s2).columns from
      ⟨List.mem_cons_self _ _, List.mem_cons_of_mem _ (List.mem_cons_self _ _)⟩)]
    simp only [moveCsv, csvRowsGo, hrow, importOneSite, hdom, hser]
  have hjson : (InventoryService.import_from_json inv (moveJson d s2)).1
      = { sites := listSet inv.sites d site'
          servers := listModify (ensureServerExists inv.servers s2) s2
            (fun sv => sv.add_site d) } := by
    unfold InventoryService.import_from_json moveJson
    simp only [jsonRowsGo, hbuild, importOneSite, hdom, hser]
  obtain ⟨r2, hr2⟩ := ensure_get_self inv.servers s2
  rw [hcsv, hjson]
  refine ⟨⟨site', ?_, hser⟩,
          ⟨srv1.update_capacity_status, ?_, ?_, update_status_sites srv1, update_status_current srv1⟩,
          ⟨(r2.add_site d).update_capacity_status, ?_, ?_⟩,
          ⟨site', ?_, hser⟩,
          ⟨srv1, ?_, hmem, rfl, rfl⟩,
          ⟨r2.add_site d, ?_, add_site_mem r2 d⟩⟩
  · exact listGet_listSet_self inv.sites d site'
  · rw [listGet_map_update, listGet_listModify_ne _ _ _ _ hs1s2,
      ensure_get_ne _ _ _ hs1s2, hs1]
    rfl
  · rw [update_status_sites]
    exact hmem
  · rw [listGet_map_update, listGet_listModify_self _ _ _ _ hr2]
    rfl
  · rw [update_status_sites]
    exact add_site_mem r2 d
  · exact listGet_listSet_self inv.sites d site'
  · rw [listGet_listModify_ne _ _ _ _ hs1s2, ensure_get_ne _ _ _ hs1s2]
    exact hs1
  · exact listGet_listModify_self _ _ _ _ hr2

/-- Witness for C9: example.com stored under old.example is re-imported
    under new.example. -/
theorem import_replaces_site_keeps_old_server_C9_witness :
    (∃ st, listGet (InventoryService.import_from_csv wInv
        (moveCsv "example.com" "new.example")).1.sites "example.com" = some st ∧
        st.server = "new.example") ∧
    (∃ v1, listGet (InventoryService.import_from_csv wInv
        (moveCsv "example.com" "new.example")).1.servers "old.example" = some v1 ∧
        "example.com" ∈ v1.sites ∧ v1.sites = wServerOld.sites ∧
        v1.capacity.current_sites = wServerOld.capacity.current_sites) ∧
    (∃ v2, listGet (InventoryService.import_from_csv wInv
        (moveCsv "example.com" "new.example")).1.servers "new.example" = some v2 ∧
        "example.com" ∈ v2.sites) ∧
    (∃ st, listGet (InventoryService.import_from_json wInv
        (moveJson "example.com" "new.example")).1.sites "example.com" = some st ∧
        st.server = "new.example") ∧
    (∃ v1, listGet (InventoryService.import_from_json wInv
        (moveJson "example.com" "new.example")).1.servers "old.example" = some v1 ∧
        "example.com" ∈ v1.sites ∧ v1.sites = wServerOld.sites ∧
        v1.capacity.current_sites = wServerOld.capacity.current_sites) ∧
    (∃ v2, listGet (InventoryService.import_from_json wInv
        (moveJson "example.com" "new.example")).1.servers "new.example" = some v2 ∧
        "example.com" ∈ v2.sites) :=
  import_replaces_site_keeps_old_server_C9 wInv "example.com" "old.example" "new.example"
    wSiteStored wSiteMoved wServerOld rfl rfl rfl (by decide) (by decide) rfl rfl rfl

end SiteOptimizer
